import Mathlib

/-!
Verification development for the chat message normalization and rendering
pipeline of the ChatOver overlay extension.

The JavaScript sources are shallowly embedded:
* dynamic objects become structures whose fields are `Option`-valued (a `none`
  models an absent / `undefined` field), and fields that genuinely vary in
  shape across payload variants become small sum types;
* JavaScript truthiness of strings, booleans and chained `||` fallbacks is
  modelled by the `js*` helpers below;
* asynchronous methods are split at their `await` points into atomic phases
  so that interleavings can be stated explicitly.
-/

namespace ChatOver

/-! ## JavaScript-semantics helpers -/

/-- `s.includes(sub)` on JS strings: substring containment. -/
def jsIncludes (s sub : String) : Bool := decide (sub.toList <:+: s.toList)

/-- `s.startsWith(p)` on JS strings. -/
def jsStartsWith (s p : String) : Bool := decide (p.toList <+: s.toList)

/-- The ASCII whitespace characters trimmed by `String.prototype.trim`. -/
def isWsChar (c : Char) : Bool := c = ' ' || c = '\t' || c = '\n' || c = '\r'

/-- `s.trim()` on JS strings (ASCII whitespace suffices for this code base). -/
def jsTrim (s : String) : String :=
  String.mk (((s.toList.dropWhile isWsChar).reverse.dropWhile isWsChar).reverse)

/-- `a || d` where `a` is a possibly-absent string: `undefined` and `""` are
falsy and fall through to the default `d`. -/
def jsOrStr : Option String → String → String
  | some s, d => if s = "" then d else s
  | none, d => d

/-- `a || b` in a chain of possibly-absent strings, keeping absence explicit. -/
def jsOrOpt : Option String → Option String → Option String
  | some s, b => if s = "" then b else some s
  | none, b => b

/-- Truthiness of a possibly-absent string (`undefined` and `""` are falsy). -/
def jsTruthyS : Option String → Bool
  | some s => s ≠ ""
  | none => false

/-- Truthiness of a possibly-absent boolean field (`x || false`). -/
def jsTruthyB (o : Option Bool) : Bool := o.getD false

/-- Lowercase hexadecimal digit, as produced by `Number.prototype.toString(16)`. -/
def hexDigitChar (n : Nat) : Char :=
  if n < 10 then Char.ofNat (48 + n) else Char.ofNat (87 + n)

/-- Base-16 digit expansion (most significant first); the first argument is
fuel, always called with fuel ≥ the number, which is ample. -/
def hexDigitsAux : Nat → Nat → List Char
  | 0, _ => []
  | _ + 1, 0 => []
  | f + 1, n + 1 => hexDigitsAux f ((n + 1) / 16) ++ [hexDigitChar ((n + 1) % 16)]

/-- `n.toString(16)` for a nonnegative integer: lowercase hex, no leading
zeros, `"0"` for zero. -/
def toHexString (n : Nat) : String :=
  if n = 0 then "0" else String.mk (hexDigitsAux n n)

/-- `s.padStart(len, c)`: pad on the left up to `len`; never truncates. -/
def padStart (s : String) (len : Nat) (c : Char) : String :=
  String.mk (List.replicate (len - s.length) c) ++ s

/-- `i >>> 0`: JS `ToUint32` of an integral value. -/
def toUint32 (i : Int) : Nat := (i % (4294967296 : Int)).toNat

/-! ## Raw transport payloads (youtubei.js shapes)

Each structure lists exactly the fields the parser reads; every field the
code accesses defensively is `Option`-valued. -/

/-- A thumbnail entry: either an object carrying a `url`, or (in some payload
variants) a bare string. -/
inductive RawThumb where
  | tObj (url : Option String)
  | tStr (s : String)
deriving DecidableEq

/-- `t?.url` — a bare string has no `url` property. -/
def thumbUrl : RawThumb → Option String
  | .tObj u => u
  | .tStr _ => none

/-- `xs?.[0]?.url` on a possibly-absent thumbnail array. -/
def firstThumbUrl : Option (List RawThumb) → Option String
  | some (t :: _) => thumbUrl t
  | _ => none

/-- An object holding a `thumbnails` array (the `image` / `icon` wrappers). -/
structure RawThumbHolder where
  thumbnails : Option (List RawThumb) := none
deriving DecidableEq

/-- `badge.custom_thumbnail` varies in shape: an object with a `thumbnails`
array, or directly an array of thumbnails. -/
inductive RawCustomThumb where
  | ctObj (thumbnails : Option (List RawThumb))
  | ctArr (elems : List RawThumb)
deriving DecidableEq

/-- `badge.custom_thumbnail?.thumbnails?.[0]?.url` (undefined on the array shape). -/
def customThumbObjUrl : Option RawCustomThumb → Option String
  | some (.ctObj ths) => firstThumbUrl ths
  | _ => none

/-- `badge.custom_thumbnail?.[0]?.url` (undefined on the object shape). -/
def customThumbArrUrl : Option RawCustomThumb → Option String
  | some (.ctArr es) => firstThumbUrl (some es)
  | _ => none

/-- A raw author badge. -/
structure RawBadge where
  tooltip : Option String := none
  thumbnails : Option (List RawThumb) := none
  custom_thumbnail : Option RawCustomThumb := none
  image : Option RawThumbHolder := none
  icon : Option RawThumbHolder := none
  thumbnail : Option RawThumb := none
  url : Option String := none
deriving DecidableEq

/-- A raw author object (text-like fields are already their `toString` form). -/
structure RawAuthor where
  name : Option String := none
  id : Option String := none
  thumbnails : Option (List RawThumb) := none
  is_owner : Option Bool := none
  is_moderator : Option Bool := none
  is_member : Option Bool := none
  is_verified : Option Bool := none
  badges : Option (List RawBadge) := none
deriving DecidableEq

/-- `run.emoji.image` varies in shape: an object (optionally with a
`thumbnails` array and/or a direct `url`) or an array of thumbnails. -/
inductive RawEmojiImage where
  | eiObj (thumbnails : Option (List RawThumb)) (url : Option String)
  | eiArr (elems : List RawThumb)
deriving DecidableEq

/-- A raw emoji payload inside a message run. -/
structure RawEmoji where
  image : Option RawEmojiImage := none
  shortcuts : Option (List String) := none
  emoji_id : Option String := none
deriving DecidableEq

/-- One raw run of a message body. -/
structure RawRun where
  emoji : Option RawEmoji := none
  text : Option String := none
deriving DecidableEq

/-- A raw message body; `strVal` is the result of `message.toString()`. -/
structure RawMessage where
  strVal : String
  runs : Option (List RawRun) := none
deriving DecidableEq

/-- `item.sticker` varies in shape: an array of thumbnails or an object with
a nested `thumbnails` array. -/
inductive RawSticker where
  | stArr (elems : List RawThumb)
  | stObj (thumbnails : Option (List RawThumb))
deriving DecidableEq

/-- `item.sticker?.[0]?.url` (undefined on the object shape). -/
def stickerIndexUrl : Option RawSticker → Option String
  | some (.stArr es) => firstThumbUrl (some es)
  | _ => none

/-- `item.sticker?.thumbnails?.[0]?.url` (undefined on the array shape). -/
def stickerThumbsUrl : Option RawSticker → Option String
  | some (.stObj ths) => firstThumbUrl ths
  | _ => none

/-- A dynamically-typed numeric field: either an actual number or a value of
some other runtime type (`typeof x === 'number'` is false). -/
inductive JNum where
  | num (val : Int)
  | other
deriving DecidableEq

/-- `button.on_tap.browse_endpoint`. -/
structure RawBrowseEndpoint where
  browse_id : Option String := none
deriving DecidableEq

/-- `button.on_tap`. -/
structure RawOnTap where
  browse_endpoint : Option RawBrowseEndpoint := none
deriving DecidableEq

/-- A before-content button (reply chips live here). -/
structure RawButton where
  title : Option String := none
  accessibility_text : Option String := none
  tooltip : Option String := none
  on_tap : Option RawOnTap := none
deriving DecidableEq

/-- The `header` of a gift purchase announcement. -/
structure RawGiftHeader where
  primary_text : Option String := none
  author_name : Option String := none
  author_photo : Option (List RawThumb) := none
  author_badges : Option (List RawBadge) := none
deriving DecidableEq

/-- A raw chat item with its `type` discriminant; text-valued payload fields
hold their `toString` form. -/
structure RawItem where
  type : String
  id : Option String := none
  author : Option RawAuthor := none
  message : Option RawMessage := none
  timestamp : Option Int := none
  before_content_buttons : Option (List RawButton) := none
  purchase_amount : Option String := none
  header_background_color : Option JNum := none
  sticker : Option RawSticker := none
  sticker_accessibility_label : Option String := none
  background_color : Option JNum := none
  header_primary_text : Option String := none
  header_subtext : Option String := none
  header : Option RawGiftHeader := none
  primary_text : Option String := none
  author_external_channel_id : Option String := none
deriving DecidableEq

/-- A raw transport action: whether it is an `AddChatItemAction`, and its
contained item (absent models a falsy `item`). -/
structure RawAction where
  isAddChatItem : Bool
  item : Option RawItem := none
deriving DecidableEq

/-! ## Normalized message model -/

-- The closed tag set of message types.
namespace MessageType

def TEXT : String := "text"

def PAID : String := "paid"

def STICKER : String := "sticker"

def MEMBERSHIP : String := "membership"

def GIFT_PURCHASE : String := "gift_purchase"

def GIFT_REDEMPTION : String := "gift_redemption"

def SYSTEM : String := "system"

end MessageType

/-- The value stored in `author.avatarUrl`: normally a string, but the JS
fallback `thumb?.url || thumb || ''` can leak a non-string object reference
when the first thumbnail is an object without a truthy `url`. -/
inductive AvatarVal where
  | avStr (s : String)
  | avObjRef
deriving DecidableEq

/-- The parsed author record. `isVerified` is `Option`-valued because the
source's no-author default object carries no `isVerified` key at all. -/
structure ParsedAuthor where
  name : String
  channelId : String
  avatarUrl : AvatarVal
  isModerator : Bool
  isMember : Bool
  isOwner : Bool
  isVerified : Option Bool
deriving DecidableEq

/-- A parsed badge; built-ins carry `icon`, custom badges carry `url`. -/
structure Badge where
  type : String
  label : String
  icon : Option String := none
  url : Option String := none
deriving DecidableEq

/-- One parsed run of a message body, mirroring the three object shapes the
parser pushes (`type: 'emote' | 'text' | 'sticker'`). -/
inductive PRun where
  | emote (url : String) (alt : String) (text : String)
  | textRun (text : String)
  | stickerRun (url : String) (alt : String)
deriving DecidableEq

/-- Parsed message body: flattened text plus ordered runs. -/
structure MessageContent where
  text : String
  runs : List PRun
deriving DecidableEq

/-- A reply target extracted from before-content buttons. -/
structure ReplyTo where
  username : String
  channelId : Option String
deriving DecidableEq

/-- Paid message / sticker payload. -/
structure PaidInfo where
  amount : String
  color : String
deriving DecidableEq

/-- Membership payload. -/
structure MembershipInfo where
  duration : String
  level : String
deriving DecidableEq

/-- Gift payload. -/
structure GiftInfo where
  isGift : Bool
  type : String
deriving DecidableEq

/-- The normalized message; variant payloads are absent unless the branch
that builds the message sets them. Timestamps are epoch milliseconds. -/
structure Message where
  id : String
  type : String
  author : ParsedAuthor
  badges : List Badge
  message : MessageContent
  timestamp : Int
  replyTo : Option ReplyTo := none
  paidInfo : Option PaidInfo := none
  membershipInfo : Option MembershipInfo := none
  giftInfo : Option GiftInfo := none
deriving DecidableEq

/-- The ambient inputs of a parse call: `Date.now()` and the random suffix
drawn by `_generateId`. -/
structure GenCtx where
  now : Int
  rand : String
deriving DecidableEq

/-- `item.timestamp ? new Date(item.timestamp) : new Date()` (0 is falsy). -/
def dateOf (ts : Option Int) (now : Int) : Int :=
  match ts with
  | some t => if t = 0 then now else t
  | none => now

namespace MessageParser

/-- `'msg_' + Date.now() + '_' + <random suffix>`. -/
def generateId (ctx : GenCtx) : String :=
  "msg_" ++ toString ctx.now ++ "_" ++ ctx.rand

/-- Convert a Super Chat color code to hex, defaulting when the field is
absent or not a number. -/
def getSuperChatColor : Option JNum → String
  | some (.num colorCode) => "#" ++ padStart (toHexString (toUint32 colorCode)) 6 '0'
  | _ => "#1565C0"

/-- The mojibake checkmark literal compared against badge tooltips. -/
def checkmarkLit : String := "âœ“"

/-- Membership check: explicit flag, else badge tooltips containing
`Member` or `member`. -/
def isMember (author : RawAuthor) : Bool :=
  if jsTruthyB author.is_member then true
  else
    match author.badges with
    | some bs =>
        bs.any fun badge =>
          let tooltip := jsOrStr badge.tooltip ""
          jsIncludes tooltip "Member" || jsIncludes tooltip "member"
    | none => false

/-- Verified check: explicit flag, else badge tooltips containing
`Verified`/`verified` or equal to the checkmark literal. -/
def isVerified (author : RawAuthor) : Bool :=
  if jsTruthyB author.is_verified then true
  else
    match author.badges with
    | some bs =>
        bs.any fun badge =>
          let tooltip := jsOrStr badge.tooltip ""
          jsIncludes tooltip "Verified" || jsIncludes tooltip "verified" ||
            tooltip = checkmarkLit
    | none => false

/-- `avatarUrl` extraction: `thumb?.url || thumb || ''` on the first entry
of a truthy, nonempty `thumbnails`. -/
def avatarOf : Option (List RawThumb) → AvatarVal
  | some (thumb :: _) =>
      match thumb with
      | .tObj (some u) => if u = "" then .avObjRef else .avStr u
      | .tObj none => .avObjRef
      | .tStr s => .avStr s
  | _ => .avStr ""

/-- `_parseAuthor`: defaults when the author object is absent; note the
default object carries no `isVerified` key. -/
def parseAuthor : Option RawAuthor → ParsedAuthor
  | none =>
      { name := "Unknown", channelId := "", avatarUrl := .avStr "",
        isModerator := false, isMember := false, isOwner := false,
        isVerified := none }
  | some author =>
      { name := jsOrStr author.name "Unknown",
        channelId := jsOrStr author.id "",
        avatarUrl := avatarOf author.thumbnails,
        isModerator := jsTruthyB author.is_moderator,
        isMember := isMember author,
        isOwner := jsTruthyB author.is_owner,
        isVerified := some (isVerified author) }

/-- The multi-path fallback chain for a custom badge's image URL. -/
def badgeUrlOf (badge : RawBadge) : Option String :=
  jsOrOpt (firstThumbUrl badge.thumbnails)
    (jsOrOpt (customThumbObjUrl badge.custom_thumbnail)
      (jsOrOpt (customThumbArrUrl badge.custom_thumbnail)
        (jsOrOpt (firstThumbUrl (badge.image.bind RawThumbHolder.thumbnails))
          (jsOrOpt (firstThumbUrl (badge.icon.bind RawThumbHolder.thumbnails))
            (jsOrOpt (badge.thumbnail.bind thumbUrl) badge.url)))))

/-- `_parseBadges`: built-in status badges in priority order, then custom
badges with a recoverable image URL. -/
def parseBadges : Option RawAuthor → List Badge
  | none => []
  | some author =>
      (if jsTruthyB author.is_owner then
        [{ type := "owner", label := "Owner", icon := some "ðŸ‘‘" }]
      else []) ++
      (if jsTruthyB author.is_moderator then
        [{ type := "moderator", label := "Moderator", icon := some "ðŸ”§" }]
      else []) ++
      (if jsTruthyB author.is_verified then
        [{ type := "verified", label := "Verified", icon := some "âœ“" }]
      else []) ++
      (match author.badges with
      | some bs =>
          bs.filterMap fun badge =>
            let badgeUrl := badgeUrlOf badge
            if jsTruthyS badgeUrl then
              some { type := "custom", label := jsOrStr badge.tooltip "Badge", url := badgeUrl }
            else none
      | none => [])

/-- Emote URL extraction, trying the possible shapes of `run.emoji.image`. -/
def emojiUrlOf : Option RawEmojiImage → String
  | none => ""
  | some (.eiObj ths u) =>
      if jsTruthyS (firstThumbUrl ths) then (firstThumbUrl ths).getD ""
      else if jsTruthyS u then u.getD ""
      else ""
  | some (.eiArr es) => jsOrStr (firstThumbUrl (some es)) ""

/-- `run.emoji.shortcuts?.[0] || run.emoji.emoji_id || run.text || ':emote:'`. -/
def emojiAltOf (e : RawEmoji) (runText : Option String) : String :=
  jsOrStr (match e.shortcuts with | some (s :: _) => some s | _ => none)
    (jsOrStr e.emoji_id (jsOrStr runText ":emote:"))

/-- One run of the body: an emote run if `run.emoji` is truthy, else text. -/
def parseRun (run : RawRun) : PRun :=
  match run.emoji with
  | some e =>
      .emote (emojiUrlOf e.image) (emojiAltOf e run.text)
        (jsOrStr run.text (emojiAltOf e run.text))
  | none => .textRun (jsOrStr run.text "")

/-- `_parseMessageContent`: degrade to empty on absence, normalize the
`'N/A'` sentinel to empty text, keep runs when present. -/
def parseMessageContent : Option RawMessage → MessageContent
  | none => { text := "", runs := [] }
  | some m =>
      let rawText := m.strVal
      let text := if rawText = "N/A" then "" else rawText
      match m.runs with
      | some rs => { text := text, runs := rs.map parseRun }
      | none => { text := text, runs := [.textRun text] }

/-- `button.on_tap?.browse_endpoint?.browse_id || null`. -/
def buttonBrowseId (button : RawButton) : Option String :=
  match (button.on_tap.bind RawOnTap.browse_endpoint).bind RawBrowseEndpoint.browse_id with
  | some s => if s = "" then none else some s
  | none => none

/-- The scan of before-content buttons for a reply chip. -/
def findReplyButton : List RawButton → Option ReplyTo
  | [] => none
  | button :: rest =>
      let title := jsOrStr button.title (jsOrStr button.accessibility_text "")
      if title ≠ "" ∧ (jsStartsWith title "@" || jsIncludes title "@") then
        some { username := title, channelId := buttonBrowseId button }
      else
        let tooltip := jsOrStr button.tooltip ""
        if tooltip ≠ "" ∧ (jsStartsWith tooltip "@" || jsIncludes tooltip "@") then
          some { username := tooltip, channelId := buttonBrowseId button }
        else findReplyButton rest

/-- `_parseReplyTarget`. -/
def parseReplyTarget (item : RawItem) : Option ReplyTo :=
  match item.before_content_buttons with
  | none => none
  | some buttons => if buttons.isEmpty then none else findReplyButton buttons

/-- `_parseTextMessage`. -/
def parseTextMessage (ctx : GenCtx) (item : RawItem) : Message :=
  { id := jsOrStr item.id (generateId ctx),
    type := MessageType.TEXT,
    author := parseAuthor item.author,
    badges := parseBadges item.author,
    message := parseMessageContent item.message,
    timestamp := dateOf item.timestamp ctx.now,
    replyTo := parseReplyTarget item }

/-- `_parsePaidMessage`. -/
def parsePaidMessage (ctx : GenCtx) (item : RawItem) : Message :=
  { id := jsOrStr item.id (generateId ctx),
    type := MessageType.PAID,
    author := parseAuthor item.author,
    badges := parseBadges item.author,
    message := parseMessageContent item.message,
    timestamp := dateOf item.timestamp ctx.now,
    paidInfo := some { amount := jsOrStr item.purchase_amount "",
                       color := getSuperChatColor item.header_background_color } }

/-- `_parseStickerMessage`. -/
def parseStickerMessage (ctx : GenCtx) (item : RawItem) : Message :=
  let stickerUrl := jsOrStr (jsOrOpt (stickerIndexUrl item.sticker) (stickerThumbsUrl item.sticker)) ""
  let stickerAlt := jsOrStr item.sticker_accessibility_label "Super Sticker"
  let bgColor :=
    match item.background_color with
    | some (.num v) => "#" ++ padStart (toHexString (toUint32 v)) 6 '0'
    | _ => "#1565C0"
  { id := jsOrStr item.id (generateId ctx),
    type := MessageType.STICKER,
    author := parseAuthor item.author,
    badges := parseBadges item.author,
    message := { text := "", runs := [.stickerRun stickerUrl stickerAlt] },
    timestamp := dateOf item.timestamp ctx.now,
    paidInfo := some { amount := jsOrStr item.purchase_amount "", color := bgColor } }

/-- `_parseMembershipMessage`. -/
def parseMembershipMessage (ctx : GenCtx) (item : RawItem) : Message :=
  let durationText := jsOrStr item.header_primary_text "New member"
  let membershipLevel := jsOrStr item.header_subtext ""
  { id := jsOrStr item.id (generateId ctx),
    type := MessageType.MEMBERSHIP,
    author := parseAuthor item.author,
    badges := parseBadges item.author,
    message := parseMessageContent item.message,
    timestamp := ctx.now,
    membershipInfo := some { duration := durationText, level := membershipLevel } }

/-- The author-like object the gift-purchase branch builds from the header. -/
def giftAuthorOf (item : RawItem) (h : RawGiftHeader) : RawAuthor :=
  { name := h.author_name,
    thumbnails := some (h.author_photo.getD []),
    badges := some (h.author_badges.getD []),
    id := some (jsOrStr item.author_external_channel_id ""),
    is_owner := some false,
    is_moderator := some false,
    is_member := some true,
    is_verified := some false }

/-- `_parseGiftPurchaseMessage`. -/
def parseGiftPurchaseMessage (ctx : GenCtx) (item : RawItem) : Message :=
  let headerText :=
    jsOrStr (item.header.bind RawGiftHeader.primary_text)
      (jsOrStr item.primary_text "Gifted memberships!")
  let effAuthor :=
    match item.header with
    | some h => some (giftAuthorOf item h)
    | none => item.author
  { id := jsOrStr item.id (generateId ctx),
    type := MessageType.GIFT_PURCHASE,
    author := parseAuthor effAuthor,
    badges := parseBadges effAuthor,
    message := { text := headerText, runs := [] },
    timestamp := ctx.now,
    giftInfo := some { isGift := true, type := "purchase" } }

/-- `_parseGiftRedemptionMessage`. -/
def parseGiftRedemptionMessage (ctx : GenCtx) (item : RawItem) : Message :=
  let messageText :=
    jsOrStr (item.message.map RawMessage.strVal)
      (jsOrStr item.primary_text "Received a gifted membership!")
  { id := jsOrStr item.id (generateId ctx),
    type := MessageType.GIFT_REDEMPTION,
    author := parseAuthor item.author,
    badges := parseBadges item.author,
    message := { text := messageText, runs := [] },
    timestamp := ctx.now,
    giftInfo := some { isGift := true, type := "redemption" } }

/-- `parseAction`: only `AddChatItemAction` with a truthy item and a
recognized subtype yields a message. -/
def parseAction (ctx : GenCtx) (action : RawAction) : Option Message :=
  if !action.isAddChatItem then none
  else
    match action.item with
    | none => none
    | some item =>
        match item.type with
        | "LiveChatTextMessage" => some (parseTextMessage ctx item)
        | "LiveChatPaidMessage" => some (parsePaidMessage ctx item)
        | "LiveChatPaidSticker" => some (parseStickerMessage ctx item)
        | "LiveChatMembershipItem" => some (parseMembershipMessage ctx item)
        | "LiveChatSponsorshipsGiftPurchaseAnnouncement" =>
            some (parseGiftPurchaseMessage ctx item)
        | "LiveChatSponsorshipsGiftRedemptionAnnouncement" =>
            some (parseGiftRedemptionMessage ctx item)
        | _ => none

end MessageParser

/-! ## ChatManager: connection state machine, error triage, sendMessage -/

/-- The connection states owned by the chat session controller. -/
inductive ConnectionState where
  | disconnected
  | connecting
  | connected
  | error
  | ended
deriving DecidableEq

/-- The observable outcome of the live-chat `error` listener: the connection
state afterwards, whether the error was emitted to `error` subscribers, and
whether a delayed `livechat.start()` restart was scheduled. -/
structure ErrOutcome where
  newState : ConnectionState
  emittedError : Bool
  scheduledRestart : Bool
deriving DecidableEq

/-- The `error` listener installed by `_setupLiveChatListeners`, as a function
of the current connection state and the error's message text
(`error?.message || error?.toString() || ''`). -/
def handleLiveChatError (st : ConnectionState) (errorMsg : String) : ErrOutcome :=
  if jsIncludes errorMsg "Failed to fetch" || jsIncludes errorMsg "NetworkError" then
    { newState := st, emittedError := false, scheduledRestart := true }
  else if jsIncludes errorMsg "DimChatItemAction" || jsIncludes errorMsg "sendMessage" ||
      jsIncludes errorMsg "not allowed" || jsIncludes errorMsg "permission" then
    { newState := st, emittedError := false, scheduledRestart := false }
  else
    { newState := .error, emittedError := true, scheduledRestart := false }

/-- The result object of `sendMessage`: `{success, error?}`. -/
structure SendRes where
  success : Bool
  error : Option String := none
deriving DecidableEq

/-- The outcome of the transport's own `sendMessage`, had it been invoked:
resolves, or rejects with an error whose message text is given. -/
inductive TransportSend where
  | ok
  | errMsg (msg : String)
deriving DecidableEq

/-- The slice of `ChatManager` state read by `sendMessage`: the connection
state and the live-chat handle (`some` = a handle is held). -/
structure ManagerState where
  connectionState : ConnectionState
  livechat : Option Nat
deriving DecidableEq

/-- A completed `sendMessage` call: the returned result, the manager state
after the call, and whether the transport's send was actually invoked. -/
structure SendCall where
  res : SendRes
  state : ManagerState
  contactedTransport : Bool
deriving DecidableEq

/-- `ChatManager.sendMessage`: typed failure results, no thrown errors, no
state mutation. -/
def sendMessage (st : ManagerState) (text : String) (transport : TransportSend) : SendCall :=
  if text = "" ∨ jsTrim text = "" then
    { res := { success := false, error := some "empty" }, state := st, contactedTransport := false }
  else if st.livechat = none ∨ st.connectionState ≠ .connected then
    { res := { success := false, error := some "not_connected" }, state := st, contactedTransport := false }
  else
    match transport with
    | .ok => { res := { success := true }, state := st, contactedTransport := true }
    | .errMsg m =>
        if jsIncludes m "not allowed" || jsIncludes m "permission" ||
            jsIncludes m "subscriber" || jsIncludes m "DimChatItemAction" then
          { res := { success := false, error := some "not_allowed" }, state := st,
            contactedTransport := true }
        else
          { res := { success := false, error := some "send_failed" }, state := st,
            contactedTransport := true }

/-! ### Connection lifecycle

`connect` is asynchronous: its synchronous prefix (the teardown check and the
transition to `connecting`) runs before any `await`, and the rest (assigning
the fresh live-chat handle, subscribing its listeners, `start()`, transition
to `connected`) runs when the awaited metadata resolution completes. The two
phases are modelled as separate atomic steps so call interleavings can be
expressed. Transport sessions are numbered; a session is *active* from its
`start()` until a `stop()` reaches it, and each active session forwards each
logical chat event to the `message` subscribers once. -/

/-- Controller state for the connection lifecycle. -/
structure ControllerState where
  livechat : Option Nat
  videoId : Option String
  connectionState : ConnectionState
  activeSessions : List Nat
deriving DecidableEq

/-- The freshly-constructed controller. -/
def initialController : ControllerState :=
  { livechat := none, videoId := none, connectionState := .disconnected, activeSessions := [] }

/-- `ChatManager.disconnect`: stop and drop the held live-chat handle, clear
the video id, transition to `disconnected`. -/
def disconnect (s : ControllerState) : ControllerState :=
  match s.livechat with
  | some sid =>
      { livechat := none, videoId := none, connectionState := .disconnected,
        activeSessions := s.activeSessions.filter (fun x => x ≠ sid) }
  | none =>
      { s with videoId := none, connectionState := .disconnected }

/-- The synchronous prefix of `connect(videoId)`: tear down only if a
live-chat handle is currently held, then transition to `connecting`. -/
def connectBegin (s : ControllerState) (vid : String) : ControllerState :=
  let s1 := if s.livechat.isSome then disconnect s else s
  { s1 with videoId := some vid, connectionState := .connecting }

/-- The resumption of `connect` after its awaits succeed: store the fresh
session as the live-chat handle, subscribe and start it, transition to
`connected`. -/
def connectFinish (s : ControllerState) (sid : Nat) : ControllerState :=
  { s with
    livechat := some sid,
    activeSessions := s.activeSessions ++ [sid],
    connectionState := .connected }

/-- A `connect` call that runs to completion with no interleaved call. -/
def connectRun (s : ControllerState) (vid : String) (sid : Nat) : ControllerState :=
  connectFinish (connectBegin s vid) sid

/-- How many times one logical chat event is delivered to `message`
subscribers: once per active (started, not stopped) session. -/
def deliveriesPerEvent (s : ControllerState) : Nat := s.activeSessions.length

/-! ## MessageRenderer: bounded message log -/

/-- One `{id, element}` record of the renderer's internal ordered log; the
element handle is abstracted by the message it was materialized from. -/
structure RendRecord where
  id : String
  element : Message
deriving DecidableEq

/-- The renderer state relevant to the retained-log bound. -/
structure MessageRenderer where
  maxMessages : Nat
  messages : List RendRecord
deriving DecidableEq

/-- Default maximum number of messages to display. -/
def DEFAULT_MAX_MESSAGES : Nat := 50

/-- The constructor: `options.maxMessages || DEFAULT_MAX_MESSAGES`
(`0` and an omitted option are both falsy). -/
def mkMessageRenderer (optionsMaxMessages : Option Nat) : MessageRenderer :=
  { maxMessages :=
      match optionsMaxMessages with
      | some n => if n = 0 then DEFAULT_MAX_MESSAGES else n
      | none => DEFAULT_MAX_MESSAGES,
    messages := [] }

/-- `_enforceMaxMessages`: while the log exceeds the bound, shift off the
oldest record (removing its visual node). -/
def enforceMaxMessages (maxMessages : Nat) (msgs : List RendRecord) : List RendRecord :=
  if _h : msgs.length > maxMessages then enforceMaxMessages maxMessages msgs.tail else msgs
termination_by msgs.length
decreasing_by simp only [List.length_tail]; omega

/-- `addMessage`: materialize the element, append the `{id, element}` record,
then enforce the bound. -/
def addMessage (r : MessageRenderer) (message : Message) : MessageRenderer :=
  { r with messages :=
      enforceMaxMessages r.maxMessages (r.messages ++ [{ id := message.id, element := message }]) }

/-- `setMaxMessages`: update the bound and immediately re-enforce it. -/
def setMaxMessages (r : MessageRenderer) (maxVal : Nat) : MessageRenderer :=
  { r with maxMessages := maxVal, messages := enforceMaxMessages maxVal r.messages }

/-- The record `addMessage` appends for a message. -/
def recordOf (message : Message) : RendRecord := { id := message.id, element := message }

/-! ## Derived and specification-side definitions used by the claims -/

/-- The single-session invariant: the active sessions are exactly the held
live-chat handle. -/
def SingleSession (s : ControllerState) : Prop :=
  match s.livechat with
  | some sid => s.activeSessions = [sid]
  | none => s.activeSessions = []

/-- The closed set of item subtypes the parser's switch recognizes. -/
def recognizedItemType (t : String) : Bool :=
  t == "LiveChatTextMessage" || t == "LiveChatPaidMessage" || t == "LiveChatPaidSticker" ||
    t == "LiveChatMembershipItem" || t == "LiveChatSponsorshipsGiftPurchaseAnnouncement" ||
    t == "LiveChatSponsorshipsGiftRedemptionAnnouncement"

/-- ASCII lowercasing of one character. -/
def lowerChar (c : Char) : Char :=
  if 'A' ≤ c ∧ c ≤ 'Z' then Char.ofNat (c.toNat + 32) else c

/-- ASCII lowercasing of a string. -/
def lowerStr (s : String) : String := String.mk (s.toList.map lowerChar)

/-- Modelled from the spec's words in claim C7: case-insensitive substring
containment, the matching the claim attributes to the badge-tooltip
heuristic. -/
def specContainsCI (hay needle : String) : Bool :=
  jsIncludes (lowerStr hay) (lowerStr needle)

/-- Modelled from the spec's words in claim C5: the six-digit zero-padded
lowercase hex rendering of only the low 24 bits of the color value. -/
def specLow24Hex (n : Nat) : String := padStart (toHexString (n % 16777216)) 6 '0'

/-- The schedule in which a second `connect` begins before the first
resolves: begin("v1"), begin("v2"), then both resolutions arrive. -/
def doubleConnectInterleaved : ControllerState :=
  connectFinish (connectFinish (connectBegin (connectBegin initialController "v1") "v2") 1) 2

/-- A minimal well-formed text-message item used as concrete input. -/
def sampleItem : RawItem := { type := "LiveChatTextMessage", id := some "abc" }

/-- A concrete add-chat-item action wrapping `sampleItem`. -/
def sampleAction : RawAction := { isAddChatItem := true, item := some sampleItem }

/-- A concrete ambient parse context. -/
def ctx0 : GenCtx := { now := 0, rand := "r" }

/-- The message `parseAction` produces for `sampleAction` under `ctx0`. -/
def sampleParsed : Message := MessageParser.parseTextMessage ctx0 sampleItem

/-- A minimal concrete message used to exercise the renderer. -/
def sampleMessage (i : String) : Message :=
  { id := i, type := MessageType.TEXT, author := MessageParser.parseAuthor none,
    badges := [], message := { text := "", runs := [] }, timestamp := 0 }

/-! ## General lemmas about the string helpers -/

theorem length_mk (l : List Char) : (String.mk l).length = l.length := rfl

theorem padStart_length (s : String) (len : Nat) (c : Char) :
    (padStart s len c).length = (len - s.length) + s.length := by
  simp [padStart, String.length_append, length_mk]

theorem hexDigitsAux_length_le (f : Nat) :
    ∀ n k : Nat, n < 16 ^ k → (hexDigitsAux f n).length ≤ k := by
  induction f with
  | zero => intro n k _; simp [hexDigitsAux]
  | succ f ih =>
      intro n k hn
      cases n with
      | zero => simp [hexDigitsAux]
      | succ n =>
          cases k with
          | zero =>
              rw [pow_zero] at hn
              omega
          | succ k =>
              simp only [hexDigitsAux, List.length_append, List.length_cons, List.length_nil]
              have hd : (n + 1) / 16 < 16 ^ k := by
                rw [Nat.div_lt_iff_lt_mul (by norm_num)]
                calc n + 1 < 16 ^ (k + 1) := hn
                  _ = 16 ^ k * 16 := by ring
              have := ih ((n + 1) / 16) k hd
              omega

theorem hexDigitsAux_length_ge (k : Nat) :
    ∀ n f : Nat, 16 ^ k ≤ n → n ≤ f → k + 1 ≤ (hexDigitsAux f n).length := by
  induction k with
  | zero =>
      intro n f hn hf
      rw [pow_zero] at hn
      cases f with
      | zero => omega
      | succ f =>
          cases n with
          | zero => omega
          | succ n => simp [hexDigitsAux]
  | succ k ih =>
      intro n f hn hf
      have h1 : 1 ≤ n := le_trans (Nat.one_le_pow _ _ (by norm_num)) hn
      cases f with
      | zero => omega
      | succ f =>
          cases n with
          | zero => omega
          | succ n =>
              simp only [hexDigitsAux, List.length_append, List.length_cons, List.length_nil]
              have hd : 16 ^ k ≤ (n + 1) / 16 := by
                rw [Nat.le_div_iff_mul_le (by norm_num)]
                calc 16 ^ k * 16 = 16 ^ (k + 1) := by ring
                  _ ≤ n + 1 := hn
              have hd2 : (n + 1) / 16 ≤ f := by
                have := Nat.div_lt_self (show 0 < n + 1 by omega) (show 1 < 16 by norm_num)
                omega
              have := ih ((n + 1) / 16) f hd hd2
              omega

theorem toHexString_length_le (n k : Nat) (hk : 1 ≤ k) (h : n < 16 ^ k) :
    (toHexString n).length ≤ k := by
  unfold toHexString
  by_cases h0 : n = 0
  · rw [if_pos h0]
    have h1 : ("0" : String).length = 1 := rfl
    omega
  · rw [if_neg h0, length_mk]
    exact hexDigitsAux_length_le n n k h

theorem toHexString_length_ge (n k : Nat) (h : 16 ^ k ≤ n) :
    k + 1 ≤ (toHexString n).length := by
  have hn0 : n ≠ 0 := by
    have := Nat.one_le_pow k 16 (show 0 < 16 by norm_num)
    omega
  unfold toHexString
  rw [if_neg hn0, length_mk]
  exact hexDigitsAux_length_ge k n n h le_rfl

theorem jsTrim_empty : jsTrim "" = "" := rfl

theorem text_ne_empty_of_trim_ne {t : String} (h : jsTrim t ≠ "") : t ≠ "" := by
  intro he
  subst he
  exact h jsTrim_empty

theorem generateId_ne_empty (ctx : GenCtx) : MessageParser.generateId ctx ≠ "" := by
  intro hc
  have hl := congrArg String.length hc
  simp only [MessageParser.generateId, String.length_append] at hl
  have h4 : ("msg_" : String).length = 4 := rfl
  have h1 : ("_" : String).length = 1 := rfl
  have h0 : ("" : String).length = 0 := rfl
  omega

theorem jsOrStr_ne_empty (o : Option String) (d : String) (hd : d ≠ "") :
    jsOrStr o d ≠ "" := by
  cases o with
  | none => exact hd
  | some s =>
      show (if s = "" then d else s) ≠ ""
      by_cases hs : s = ""
      · rw [if_pos hs]; exact hd
      · rw [if_neg hs]; exact hs

/-! ## Lemmas about the renderer's eviction loop -/

theorem enforceMaxMessages_eq_drop (m : Nat) (l : List RendRecord) :
    enforceMaxMessages m l = l.drop (l.length - m) := by
  induction l with
  | nil => simp [enforceMaxMessages]
  | cons a as ih =>
      by_cases h : (a :: as).length > m
      · rw [enforceMaxMessages, dif_pos h]
        simp only [List.tail_cons] at *
        rw [ih]
        have h2 : (a :: as).length - m = (as.length - m) + 1 := by
          simp only [List.length_cons] at h ⊢
          omega
        rw [h2]
        simp
      · rw [enforceMaxMessages, dif_neg h]
        have h0 : (a :: as).length - m = 0 := by omega
        rw [h0]
        rfl

theorem enforceMaxMessages_length (m : Nat) (l : List RendRecord) :
    (enforceMaxMessages m l).length = min l.length m := by
  rw [enforceMaxMessages_eq_drop, List.length_drop]
  omega

theorem enforceMaxMessages_of_le (m : Nat) (l : List RendRecord) (h : l.length ≤ m) :
    enforceMaxMessages m l = l := by
  rw [enforceMaxMessages_eq_drop]
  have h0 : l.length - m = 0 := by omega
  rw [h0, List.drop_zero]

theorem enforceMaxMessages_append (m : Nat) (A B : List RendRecord) :
    enforceMaxMessages m (enforceMaxMessages m A ++ B) = enforceMaxMessages m (A ++ B) := by
  by_cases hA : A.length ≤ m
  · rw [enforceMaxMessages_of_le m A hA]
  · rw [enforceMaxMessages_eq_drop, enforceMaxMessages_eq_drop, enforceMaxMessages_eq_drop]
    rw [← List.drop_append_of_le_length (by omega)]
    rw [List.drop_drop]
    congr 1
    simp only [List.length_append, List.length_drop]
    omega

theorem foldl_addMessage_maxMessages (msgs : List Message) (r : MessageRenderer) :
    (msgs.foldl addMessage r).maxMessages = r.maxMessages := by
  induction msgs generalizing r with
  | nil => rfl
  | cons x xs ih => simpa [addMessage] using ih _

theorem foldl_addMessage_messages (m : Nat) (msgs : List Message) :
    ∀ M : List RendRecord, M.length ≤ m →
      (msgs.foldl addMessage { maxMessages := m, messages := M }).messages =
        enforceMaxMessages m (M ++ msgs.map recordOf) := by
  induction msgs with
  | nil =>
      intro M hM
      simpa using (enforceMaxMessages_of_le m M hM).symm
  | cons x xs ih =>
      intro M hM
      have step : addMessage { maxMessages := m, messages := M } x =
          { maxMessages := m, messages := enforceMaxMessages m (M ++ [recordOf x]) } := rfl
      rw [List.foldl_cons, step]
      rw [ih _ (by rw [enforceMaxMessages_length]; omega)]
      rw [enforceMaxMessages_append]
      simp [recordOf]

/-! ## Lemmas about the single-session invariant -/

theorem connectBegin_reset (s : ControllerState) (vid : String) (hs : SingleSession s) :
    (connectBegin s vid).livechat = none ∧ (connectBegin s vid).activeSessions = [] := by
  unfold connectBegin disconnect
  cases h : s.livechat with
  | none =>
      unfold SingleSession at hs
      rw [h] at hs
      simp [h, hs]
  | some sid =>
      unfold SingleSession at hs
      rw [h] at hs
      simp [h, hs]

theorem connectRun_single (s : ControllerState) (vid : String) (sid : Nat)
    (hs : SingleSession s) :
    SingleSession (connectRun s vid sid) ∧ (connectRun s vid sid).livechat = some sid := by
  obtain ⟨h1, h2⟩ := connectBegin_reset s vid hs
  unfold connectRun connectFinish SingleSession
  simp [h1, h2]

theorem foldl_connectRun_single (runs : List (String × Nat)) (s : ControllerState)
    (hs : SingleSession s) :
    SingleSession (runs.foldl (fun t p => connectRun t p.1 p.2) s) ∧
      (runs ≠ [] →
        ∃ sid, (runs.foldl (fun t p => connectRun t p.1 p.2) s).livechat = some sid) := by
  induction runs generalizing s with
  | nil => exact ⟨hs, by simp⟩
  | cons p ps ih =>
      obtain ⟨h1, h2⟩ := connectRun_single s p.1 p.2 hs
      obtain ⟨g1, g2⟩ := ih _ h1
      rw [List.foldl_cons]
      refine ⟨g1, fun _ => ?_⟩
      cases hps : ps with
      | nil =>
          subst hps
          exact ⟨p.2, by simpa using h2⟩
      | cons q qs =>
          subst hps
          exact g2 (by simp)

/-! ## The claims -/

/-- Claim C2: while connected, an error whose text matches a transient-network
pattern ("Failed to fetch"/"NetworkError") or a send-restriction pattern
("DimChatItemAction"/"sendMessage"/"not allowed"/"permission") leaves the
state connected and emits nothing; an error matching none of these patterns
transitions to the error state and is emitted to error subscribers. -/
theorem claim2_error_triage (msg : String) :
    (((handleLiveChatError .connected msg).newState = ConnectionState.connected ∧
        (handleLiveChatError .connected msg).emittedError = false) ↔
      (jsIncludes msg "Failed to fetch" = true ∨ jsIncludes msg "NetworkError" = true ∨
        jsIncludes msg "DimChatItemAction" = true ∨ jsIncludes msg "sendMessage" = true ∨
        jsIncludes msg "not allowed" = true ∨ jsIncludes msg "permission" = true)) ∧
    (((handleLiveChatError .connected msg).newState = ConnectionState.error ∧
        (handleLiveChatError .connected msg).emittedError = true) ↔
      ¬(jsIncludes msg "Failed to fetch" = true ∨ jsIncludes msg "NetworkError" = true ∨
        jsIncludes msg "DimChatItemAction" = true ∨ jsIncludes msg "sendMessage" = true ∨
        jsIncludes msg "not allowed" = true ∨ jsIncludes msg "permission" = true)) := by
  unfold handleLiveChatError
  by_cases c1 : (jsIncludes msg "Failed to fetch" || jsIncludes msg "NetworkError") = true
  · rw [if_pos c1]
    have hd : jsIncludes msg "Failed to fetch" = true ∨ jsIncludes msg "NetworkError" = true := by
      simpa [Bool.or_eq_true] using c1
    constructor
    · constructor
      · intro _
        tauto
      · intro _
        exact ⟨rfl, rfl⟩
    · constructor
      · rintro ⟨hc, _⟩
        exact absurd hc (by decide)
      · intro hneg
        exfalso
        apply hneg
        tauto
  · rw [if_neg c1]
    by_cases c2 : (jsIncludes msg "DimChatItemAction" || jsIncludes msg "sendMessage" ||
        jsIncludes msg "not allowed" || jsIncludes msg "permission") = true
    · rw [if_pos c2]
      have hd : jsIncludes msg "DimChatItemAction" = true ∨ jsIncludes msg "sendMessage" = true ∨
          jsIncludes msg "not allowed" = true ∨ jsIncludes msg "permission" = true := by
        simpa [Bool.or_eq_true, or_assoc] using c2
      constructor
      · constructor
        · intro _
          tauto
        · intro _
          exact ⟨rfl, rfl⟩
      · constructor
        · rintro ⟨hc, _⟩
          exact absurd hc (by decide)
        · intro hneg
          exfalso
          apply hneg
          tauto
    · rw [if_neg c2]
      simp only [Bool.or_eq_true, not_or, Bool.not_eq_true] at c1 c2
      have hnone : ¬(jsIncludes msg "Failed to fetch" = true ∨
          jsIncludes msg "NetworkError" = true ∨ jsIncludes msg "DimChatItemAction" = true ∨
          jsIncludes msg "sendMessage" = true ∨ jsIncludes msg "not allowed" = true ∨
          jsIncludes msg "permission" = true) := by
        rintro (h | h | h | h | h | h) <;> simp_all
      constructor
      · constructor
        · rintro ⟨hc, _⟩
          exact absurd hc (by decide)
        · intro hdj
          exact absurd hdj hnone
      · constructor
        · intro _
          exact hnone
        · intro _
          exact ⟨rfl, rfl⟩

/-- Claim C3: `sendMessage` always returns a typed result and never mutates
state. Empty or whitespace-only text yields `empty` without contacting the
transport; non-empty text while not connected yields `not_connected` without
contacting the transport; and when connected (with a held live-chat handle, an
invariant of reachable states) a transport failure is classified `not_allowed`
for permission/subscriber-only phrasing, else `send_failed`. -/
theorem claim3_sendMessage_typed (st : ManagerState) (text : String)
    (transport : TransportSend) (m : String) :
    ((sendMessage st text transport).state = st) ∧
    (jsTrim text = "" →
      (sendMessage st text transport).res = { success := false, error := some "empty" } ∧
        (sendMessage st text transport).contactedTransport = false) ∧
    (jsTrim text ≠ "" → st.connectionState ≠ .connected →
      (sendMessage st text transport).res = { success := false, error := some "not_connected" } ∧
        (sendMessage st text transport).contactedTransport = false) ∧
    (jsTrim text ≠ "" → st.connectionState = .connected → st.livechat.isSome = true →
      transport = .errMsg m →
      (sendMessage st text transport).res =
        { success := false,
          error := some (if jsIncludes m "not allowed" || jsIncludes m "permission" ||
                jsIncludes m "subscriber" || jsIncludes m "DimChatItemAction"
              then "not_allowed" else "send_failed") }) := by
  refine ⟨?_, ?_, ?_, ?_⟩
  · unfold sendMessage
    split
    · rfl
    · split
      · rfl
      · cases transport with
        | ok => rfl
        | errMsg mm =>
            split
            · rfl
            · split <;> rfl
  · intro h
    have h1 : text = "" ∨ jsTrim text = "" := Or.inr h
    unfold sendMessage
    rw [if_pos h1]
    exact ⟨rfl, rfl⟩
  · intro hne hns
    have h1 : ¬(text = "" ∨ jsTrim text = "") := by
      rintro (rfl | h)
      · exact hne jsTrim_empty
      · exact hne h
    have h2 : st.livechat = none ∨ st.connectionState ≠ .connected := Or.inr hns
    unfold sendMessage
    rw [if_neg h1, if_pos h2]
    exact ⟨rfl, rfl⟩
  · intro hne hcon hlc htr
    subst htr
    have h1 : ¬(text = "" ∨ jsTrim text = "") := by
      rintro (rfl | h)
      · exact hne jsTrim_empty
      · exact hne h
    have hlc' : st.livechat ≠ none := by
      intro hn
      rw [hn] at hlc
      exact absurd hlc (by simp)
    have h2 : ¬(st.livechat = none ∨ st.connectionState ≠ .connected) := by
      rintro (h | h)
      · exact hlc' h
      · exact h hcon
    unfold sendMessage
    rw [if_neg h1, if_neg h2]
    split
    next heq => exact absurd heq (by simp)
    next mm heq =>
      injection heq with hm
      subst hm
      by_cases h3 : (jsIncludes m "not allowed" || jsIncludes m "permission" ||
          jsIncludes m "subscriber" || jsIncludes m "DimChatItemAction") = true
      · rw [if_pos h3, if_pos h3]
      · rw [if_neg h3, if_neg h3]

/-- Witness for claim C3 at concrete states, texts and transport outcomes. -/
theorem claim3_sendMessage_typed_witness :
    (sendMessage { connectionState := .connected, livechat := some 0 } "   " .ok).res =
      { success := false, error := some "empty" } ∧
    (sendMessage { connectionState := .disconnected, livechat := none } "hi" .ok).res =
      { success := false, error := some "not_connected" } ∧
    (sendMessage { connectionState := .connected, livechat := some 0 } "hi"
        (.errMsg "not allowed")).res = { success := false, error := some "not_allowed" } := by
  refine ⟨?_, ?_, ?_⟩
  · exact ((claim3_sendMessage_typed { connectionState := .connected, livechat := some 0 }
      "   " .ok "").2.1 (by decide)).1
  · exact ((claim3_sendMessage_typed { connectionState := .disconnected, livechat := none }
      "hi" .ok "").2.2.1 (by decide) (by decide)).1
  · have h := (claim3_sendMessage_typed { connectionState := .connected, livechat := some 0 }
      "hi" (.errMsg "not allowed") "not allowed").2.2.2 (by decide) rfl rfl rfl
    rw [h]
    decide

/-- Claim C4: after every `addMessage` the retained log length is at most
`maxMessages`, and after adding `maxMessages + k` messages (k ≥ 1) from a
fresh log exactly `maxMessages` records remain, namely the records of the
k-th (0-indexed) through last added messages in arrival order. -/
theorem claim4_renderer_bound (maxM k : Nat) (hk : 1 ≤ k) (msgs : List Message)
    (hlen : msgs.length = maxM + k) :
    (∀ (r : MessageRenderer) (msg : Message),
        ((addMessage r msg).messages).length ≤ r.maxMessages) ∧
    (msgs.foldl addMessage { maxMessages := maxM, messages := [] }).messages =
      (msgs.map recordOf).drop k ∧
    ((msgs.foldl addMessage { maxMessages := maxM, messages := [] }).messages).length = maxM := by
  have hfold : (msgs.foldl addMessage { maxMessages := maxM, messages := [] }).messages =
      (msgs.map recordOf).drop k := by
    rw [foldl_addMessage_messages maxM msgs [] (by simp), enforceMaxMessages_eq_drop]
    simp only [List.nil_append, List.length_map, hlen]
    congr 1
    omega
  refine ⟨?_, hfold, ?_⟩
  · intro r msg
    simp only [addMessage, enforceMaxMessages_length]
    exact Nat.min_le_right _ _
  · rw [hfold, List.length_drop, List.length_map, hlen]
    omega

/-- Witness for claim C4 with bound 2 and three added messages. -/
theorem claim4_renderer_bound_witness :
    ([sampleMessage "a", sampleMessage "b", sampleMessage "c"].foldl addMessage
        { maxMessages := 2, messages := [] }).messages =
      ([sampleMessage "a", sampleMessage "b", sampleMessage "c"].map recordOf).drop 1 ∧
    (([sampleMessage "a", sampleMessage "b", sampleMessage "c"].foldl addMessage
        { maxMessages := 2, messages := [] }).messages).length = 2 := by
  have h := claim4_renderer_bound 2 1 (by decide)
    [sampleMessage "a", sampleMessage "b", sampleMessage "c"] rfl
  exact ⟨h.2.1, h.2.2⟩

/-- Counterexample to claim C6 as stated: if the second `connect` begins
before the first resolves, both resolutions install and start a session, the
first is never torn down, and each chat event is then delivered twice. -/
theorem claim6_single_session_counterexample :
    doubleConnectInterleaved.activeSessions = [1, 2] ∧
    deliveriesPerEvent doubleConnectInterleaved = 2 := by
  constructor <;> rfl

/-- Claim C6 amended: a `connect` call that begins only after every earlier
`connect` has settled first tears down the previously held session, so any
sequence of non-overlapping connects leaves exactly one active session and
each chat event is delivered to message subscribers exactly once; the
exactly-once guarantee does not extend to a second `connect` issued before
the first resolves (see the counterexample). -/
theorem claim6_single_session_amended (runs : List (String × Nat)) (h : runs ≠ []) :
    deliveriesPerEvent (runs.foldl (fun t p => connectRun t p.1 p.2) initialController) = 1 := by
  have hinit : SingleSession initialController := rfl
  obtain ⟨g1, g2⟩ := foldl_connectRun_single runs initialController hinit
  obtain ⟨sid, hsid⟩ := g2 h
  unfold SingleSession at g1
  rw [hsid] at g1
  unfold deliveriesPerEvent
  rw [g1]
  rfl

/-- Witness for the amended claim C6: one completed connect run. -/
theorem claim6_single_session_amended_witness :
    deliveriesPerEvent
      (([("v", 1)] : List (String × Nat)).foldl (fun t p => connectRun t p.1 p.2)
        initialController) = 1 :=
  claim6_single_session_amended [("v", 1)] (by simp)

/-- Claim C10: a falsy or omitted `options.maxMessages` yields the default
bound 50 (never 0); with that bound, adding `k` messages retains
`min k 50` records, and a later `setMaxMessages 0` evicts every record. -/
theorem claim10_default_max_messages (opt : Option Nat)
    (hopt : opt = none ∨ opt = some 0) (msgs : List Message) :
    (mkMessageRenderer opt).maxMessages = 50 ∧
    (∀ o : Option Nat, (mkMessageRenderer o).maxMessages ≠ 0) ∧
    ((msgs.foldl addMessage (mkMessageRenderer opt)).messages).length = min msgs.length 50 ∧
    (setMaxMessages (msgs.foldl addMessage (mkMessageRenderer opt)) 0).messages = [] := by
  have hr : mkMessageRenderer opt = { maxMessages := 50, messages := [] } := by
    rcases hopt with h | h <;> subst h <;> rfl
  refine ⟨by rw [hr], ?_, ?_, ?_⟩
  · intro o
    cases o with
    | none => simp [mkMessageRenderer, DEFAULT_MAX_MESSAGES]
    | some n =>
        by_cases hn : n = 0 <;> simp [mkMessageRenderer, DEFAULT_MAX_MESSAGES, hn]
  · rw [hr, foldl_addMessage_messages 50 msgs [] (by simp), enforceMaxMessages_length]
    simp
  · unfold setMaxMessages
    simp only
    rw [enforceMaxMessages_eq_drop]
    simp [List.drop_length]

theorem recognizedItemType_true_iff (t : String) :
    recognizedItemType t = true ↔
      (t = "LiveChatTextMessage" ∨ t = "LiveChatPaidMessage" ∨ t = "LiveChatPaidSticker" ∨
        t = "LiveChatMembershipItem" ∨ t = "LiveChatSponsorshipsGiftPurchaseAnnouncement" ∨
        t = "LiveChatSponsorshipsGiftRedemptionAnnouncement") := by
  simp [recognizedItemType, Bool.or_eq_true, beq_iff_eq, or_assoc]

/-- Claim C1: `parseAction` is a total function (never throws) that returns
null exactly for non-addition actions, missing item payloads, and
unrecognized item subtypes, and returns a message for every addition event
with a recognized subtype. -/
theorem claim1_parseAction_null_iff (ctx : GenCtx) (action : RawAction) :
    (MessageParser.parseAction ctx action = none ↔
      (action.isAddChatItem = false ∨ action.item = none ∨
        ∃ it, action.item = some it ∧ recognizedItemType it.type = false)) ∧
    (∀ it, action.isAddChatItem = true → action.item = some it →
      recognizedItemType it.type = true →
      ∃ msg, MessageParser.parseAction ctx action = some msg) := by
  obtain ⟨isAdd, item⟩ := action
  cases isAdd
  · constructor
    · simp [MessageParser.parseAction]
    · intro it h
      exact absurd h (by simp)
  · cases item with
    | none =>
        constructor
        · simp [MessageParser.parseAction]
        · intro it _ h
          exact absurd h (by simp)
    | some it =>
        constructor
        · simp only [MessageParser.parseAction, Bool.not_true, Bool.false_eq_true, if_false]
          constructor
          · intro h
            refine Or.inr (Or.inr ⟨it, rfl, ?_⟩)
            by_contra hrec
            rw [Bool.not_eq_false] at hrec
            rcases (recognizedItemType_true_iff it.type).mp hrec with hc | hc | hc | hc | hc | hc <;>
              rw [hc] at h <;> simp at h
          · intro hor
            rcases hor with h | h | ⟨it', hsome, hrec⟩
            · exact absurd h (by simp)
            · exact absurd h (by simp)
            · injection hsome with hit
              subst hit
              split
              · rename_i heq
                exact absurd hrec (by simp [heq, recognizedItemType])
              · rename_i heq
                exact absurd hrec (by simp [heq, recognizedItemType])
              · rename_i heq
                exact absurd hrec (by simp [heq, recognizedItemType])
              · rename_i heq
                exact absurd hrec (by simp [heq, recognizedItemType])
              · rename_i heq
                exact absurd hrec (by simp [heq, recognizedItemType])
              · rename_i heq
                exact absurd hrec (by simp [heq, recognizedItemType])
              · rfl
        · intro it' _ hsome hrec
          injection hsome with hit
          subst hit
          rcases (recognizedItemType_true_iff it.type).mp hrec with hc | hc | hc | hc | hc | hc
          · exact ⟨MessageParser.parseTextMessage ctx it,
              by simp [MessageParser.parseAction, hc]⟩
          · exact ⟨MessageParser.parsePaidMessage ctx it,
              by simp [MessageParser.parseAction, hc]⟩
          · exact ⟨MessageParser.parseStickerMessage ctx it,
              by simp [MessageParser.parseAction, hc]⟩
          · exact ⟨MessageParser.parseMembershipMessage ctx it,
              by simp [MessageParser.parseAction, hc]⟩
          · exact ⟨MessageParser.parseGiftPurchaseMessage ctx it,
              by simp [MessageParser.parseAction, hc]⟩
          · exact ⟨MessageParser.parseGiftRedemptionMessage ctx it,
              by simp [MessageParser.parseAction, hc]⟩

/-- Witness for claim C1: a recognized addition event parses to a message. -/
theorem claim1_parseAction_null_iff_witness :
    ∃ msg, MessageParser.parseAction ctx0 sampleAction = some msg :=
  (claim1_parseAction_null_iff ctx0 sampleAction).2 sampleItem rfl rfl (by decide)

/-- Counterexample to claim C5 as stated: for the 32-bit color 0xFF1565C0
the code keeps all eight hex digits of the unsigned value — `padStart` pads
but never truncates — so the result is neither six digits long nor confined
to the low 24 bits. -/
theorem claim5_superchat_color_counterexample :
    MessageParser.getSuperChatColor (some (JNum.num 0xFF1565C0)) = "#ff1565c0" ∧
    (MessageParser.getSuperChatColor (some (JNum.num 0xFF1565C0))).length ≠ 7 ∧
    MessageParser.getSuperChatColor (some (JNum.num 0xFF1565C0)) ≠
      "#" ++ specLow24Hex (toUint32 0xFF1565C0) := by
  refine ⟨by decide, by decide, by decide⟩

/-- Claim C5 amended: a numeric color code is rendered as `'#'` followed by
the lowercase hex expansion of its unsigned-32-bit value, left-padded with
zeros to at least six digits — exactly six digits (the low 24 bits) whenever
the value is below 2^24, and seven or more digits (keeping the high byte)
otherwise; an absent or non-numeric code yields the default `#1565C0`; and
0x1565C0 yields `"#1565c0"`. -/
theorem claim5_superchat_color_amended (c : Int) (hc : toUint32 c < 16777216)
    (c2 : Int) (hc2 : 16777216 ≤ toUint32 c2) :
    MessageParser.getSuperChatColor (some (JNum.num c)) = "#" ++ specLow24Hex (toUint32 c) ∧
    (MessageParser.getSuperChatColor (some (JNum.num c))).length = 7 ∧
    8 ≤ (MessageParser.getSuperChatColor (some (JNum.num c2))).length ∧
    MessageParser.getSuperChatColor none = "#1565C0" ∧
    MessageParser.getSuperChatColor (some JNum.other) = "#1565C0" ∧
    MessageParser.getSuperChatColor (some (JNum.num 1402304)) = "#1565c0" := by
  have hpow : (16 : Nat) ^ 6 = 16777216 := by norm_num
  have hlen1 : (("#" : String)).length = 1 := rfl
  refine ⟨?_, ?_, ?_, rfl, rfl, by decide⟩
  · unfold MessageParser.getSuperChatColor specLow24Hex
    rw [Nat.mod_eq_of_lt hc]
  · unfold MessageParser.getSuperChatColor
    rw [String.length_append, padStart_length, hlen1]
    have hle : (toHexString (toUint32 c)).length ≤ 6 :=
      toHexString_length_le _ 6 (by norm_num) (by rw [hpow]; exact hc)
    omega
  · unfold MessageParser.getSuperChatColor
    rw [String.length_append, padStart_length, hlen1]
    have hge : 6 + 1 ≤ (toHexString (toUint32 c2)).length :=
      toHexString_length_ge _ 6 (by rw [hpow]; exact hc2)
    omega

/-- Witness for the amended claim C5 at 0x1565C0 and 0xFF1565C0. -/
theorem claim5_superchat_color_amended_witness :
    MessageParser.getSuperChatColor (some (JNum.num 1402304)) = "#1565c0" ∧
    8 ≤ (MessageParser.getSuperChatColor (some (JNum.num 0xFF1565C0))).length := by
  have h := claim5_superchat_color_amended 1402304 (by decide) 0xFF1565C0 (by decide)
  exact ⟨h.2.2.2.2.2, h.2.2.1⟩

/-- Counterexample to claim C7 as stated: the no-author default object
carries no `isVerified` field at all, and the badge-tooltip heuristic is not
case-insensitive — a tooltip `"MEMBER"` contains `"member"` case-insensitively
yet `_isMember` rejects it. -/
theorem claim7_author_fields_counterexample :
    (MessageParser.parseAuthor none).isVerified = none ∧
    MessageParser.isMember { badges := some [{ tooltip := some "MEMBER" }] } = false ∧
    specContainsCI "MEMBER" "member" = true := by
  refine ⟨rfl, by decide, by decide⟩

/-- Claim C7 amended: when the raw event carries an author object, all seven
fields are present (never null); when it carries none, the six other fields
take defaults and `isVerified` is absent. `isMember` holds exactly when the
explicit flag is set or some badge tooltip contains `"Member"` or `"member"`
as an exact substring; `isVerified` holds exactly when the explicit flag is
set or some badge tooltip contains `"Verified"` or `"verified"` or equals the
checkmark literal. -/
theorem claim7_author_fields_amended (ra : RawAuthor) :
    ((MessageParser.parseAuthor (some ra)).isVerified).isSome = true ∧
    (MessageParser.parseAuthor none).isVerified = none ∧
    ((MessageParser.parseAuthor (some ra)).isMember = true ↔
      (jsTruthyB ra.is_member = true ∨
        ∃ b ∈ ra.badges.getD [],
          (jsIncludes (jsOrStr b.tooltip "") "Member" = true ∨
            jsIncludes (jsOrStr b.tooltip "") "member" = true))) ∧
    ((MessageParser.parseAuthor (some ra)).isVerified = some true ↔
      (jsTruthyB ra.is_verified = true ∨
        ∃ b ∈ ra.badges.getD [],
          (jsIncludes (jsOrStr b.tooltip "") "Verified" = true ∨
            jsIncludes (jsOrStr b.tooltip "") "verified" = true ∨
            jsOrStr b.tooltip "" = MessageParser.checkmarkLit))) := by
  refine ⟨rfl, rfl, ?_, ?_⟩
  · show MessageParser.isMember ra = true ↔ _
    unfold MessageParser.isMember
    by_cases hm : jsTruthyB ra.is_member = true
    · simp [hm]
    · cases hb : ra.badges with
      | none => simp [hm, hb]
      | some bs => simp [hm, hb, List.any_eq_true, Bool.or_eq_true]
  · show some (MessageParser.isVerified ra) = some true ↔ _
    rw [Option.some_inj]
    unfold MessageParser.isVerified
    by_cases hv : jsTruthyB ra.is_verified = true
    · simp [hv]
    · cases hb : ra.badges with
      | none => simp [hv, hb]
      | some bs => simp [hv, hb, List.any_eq_true, Bool.or_eq_true, or_assoc]

/-- Claim C8: every message `parseAction` produces has a non-empty id — the
event's own id or a locally generated `msg_`-prefixed one — and a type drawn
from the closed tag set. -/
theorem claim8_message_id_type (ctx : GenCtx) (action : RawAction) (msg : Message)
    (h : MessageParser.parseAction ctx action = some msg) :
    msg.id ≠ "" ∧
    (msg.type = MessageType.TEXT ∨ msg.type = MessageType.PAID ∨
      msg.type = MessageType.STICKER ∨ msg.type = MessageType.MEMBERSHIP ∨
      msg.type = MessageType.GIFT_PURCHASE ∨ msg.type = MessageType.GIFT_REDEMPTION ∨
      msg.type = MessageType.SYSTEM) := by
  unfold MessageParser.parseAction at h
  obtain ⟨isAdd, item⟩ := action
  cases isAdd
  · simp at h
  · cases item with
    | none => simp at h
    | some it =>
        simp only [Bool.not_true, Bool.false_eq_true, if_false] at h
        split at h
        · obtain rfl : msg = MessageParser.parseTextMessage ctx it := (Option.some.inj h).symm
          exact ⟨jsOrStr_ne_empty _ _ (generateId_ne_empty ctx), Or.inl rfl⟩
        · obtain rfl : msg = MessageParser.parsePaidMessage ctx it := (Option.some.inj h).symm
          exact ⟨jsOrStr_ne_empty _ _ (generateId_ne_empty ctx), Or.inr (Or.inl rfl)⟩
        · obtain rfl : msg = MessageParser.parseStickerMessage ctx it := (Option.some.inj h).symm
          exact ⟨jsOrStr_ne_empty _ _ (generateId_ne_empty ctx),
            Or.inr (Or.inr (Or.inl rfl))⟩
        · obtain rfl : msg = MessageParser.parseMembershipMessage ctx it :=
            (Option.some.inj h).symm
          exact ⟨jsOrStr_ne_empty _ _ (generateId_ne_empty ctx),
            Or.inr (Or.inr (Or.inr (Or.inl rfl)))⟩
        · obtain rfl : msg = MessageParser.parseGiftPurchaseMessage ctx it :=
            (Option.some.inj h).symm
          exact ⟨jsOrStr_ne_empty _ _ (generateId_ne_empty ctx),
            Or.inr (Or.inr (Or.inr (Or.inr (Or.inl rfl))))⟩
        · obtain rfl : msg = MessageParser.parseGiftRedemptionMessage ctx it :=
            (Option.some.inj h).symm
          exact ⟨jsOrStr_ne_empty _ _ (generateId_ne_empty ctx),
            Or.inr (Or.inr (Or.inr (Or.inr (Or.inr (Or.inl rfl)))))⟩
        · simp at h

/-- Witness for claim C8 on a concrete text-message event. -/
theorem claim8_message_id_type_witness :
    sampleParsed.id ≠ "" ∧
    (sampleParsed.type = MessageType.TEXT ∨ sampleParsed.type = MessageType.PAID ∨
      sampleParsed.type = MessageType.STICKER ∨ sampleParsed.type = MessageType.MEMBERSHIP ∨
      sampleParsed.type = MessageType.GIFT_PURCHASE ∨
      sampleParsed.type = MessageType.GIFT_REDEMPTION ∨
      sampleParsed.type = MessageType.SYSTEM) :=
  claim8_message_id_type ctx0 sampleAction sampleParsed rfl

/-- Claim C9: the flattened text of parsed message content is never the
sentinel `"N/A"` — a body reading exactly `"N/A"` is normalized to empty
text — and an absent body yields empty text with an empty run list; the
parse is a total function (no error is thrown). -/
theorem claim9_na_normalized (m : Option RawMessage) (rs : Option (List RawRun)) :
    (MessageParser.parseMessageContent m).text ≠ "N/A" ∧
    MessageParser.parseMessageContent none = { text := "", runs := [] } ∧
    (MessageParser.parseMessageContent (some { strVal := "N/A", runs := rs })).text = "" := by
  refine ⟨?_, rfl, ?_⟩
  · cases m with
    | none =>
        show ("" : String) ≠ "N/A"
        decide
    | some mm =>
        unfold MessageParser.parseMessageContent
        by_cases hv : mm.strVal = "N/A" <;>
          cases hr : mm.runs <;> simp [hv, hr]
  · cases rs <;> simp [MessageParser.parseMessageContent]

/-- Witness for claim C10 at `maxMessages = 0` and an empty message list. -/
theorem claim10_default_max_messages_witness :
    (mkMessageRenderer (some 0)).maxMessages = 50 ∧
    (setMaxMessages (([] : List Message).foldl addMessage (mkMessageRenderer (some 0)))
        0).messages = [] := by
  have h := claim10_default_max_messages (some 0) (Or.inr rfl) []
  exact ⟨h.1, h.2.2.2⟩

end ChatOver
